import Mathlib

/-!
# Verification of the introline-be booking/container core

Shallow embedding of the code-generation, balance-calculation,
cross-validation and lifecycle-gating logic of the `introline-be`
repository (an Express/Mongoose logistics back office), together with
proofs of the testable properties stated in its specification.

The persistence layer is modelled functionally: a Mongo collection
becomes a Lean `List` of records (or, for pure existence probes, a
membership predicate `String → Bool`), `findById` becomes an
association-list lookup, and a controller becomes a total function from
the relevant state and request payload to an `Except`-style result,
where `Except.error e` carries the HTTP status and message the
controller would respond with.
-/

namespace Introline

/-! ## Decimal digit strings

`natDigits n` is the decimal representation of `n` as a list of
characters, embedding JavaScript's `Number.prototype.toString()` for
non-negative integers.  `padList w l` embeds
`String.prototype.padStart(w, '0')`.
-/

def natDigitsAux : Nat → Nat → List Char
  | 0, _ => []
  | fuel + 1, n =>
    if n < 10 then [Nat.digitChar n]
    else natDigitsAux fuel (n / 10) ++ [Nat.digitChar (n % 10)]

def natDigits (n : Nat) : List Char :=
  natDigitsAux (n + 1) n

def padList (w : Nat) (l : List Char) : List Char :=
  List.replicate (w - l.length) '0' ++ l

/-- `pad w n` is JavaScript `n.toString().padStart(w, '0')`. -/
def pad (w n : Nat) : String :=
  String.mk (padList w (natDigits n))

/-- `takeLast k l` keeps the last `k` elements, embedding
`String.prototype.slice(-k)` on all-ASCII strings. -/
def takeLast (k : Nat) (l : List Char) : List Char :=
  l.drop (l.length - k)

/-- The character class `[A-Z0-9]` of the booking-code regex. -/
def isUpperAlnum (c : Char) : Bool :=
  ('A' ≤ c && c ≤ 'Z') || c.isDigit

/-! ## Booking code generation

Embeds `generateBookingCode` from `src/controllers/booking.controller.ts`.
The set of booking codes already present in the database (probed there
with `Booking.findOne({ bookingCode })`) is modelled as a membership
predicate `existing : String → Bool`.  The booking date, formatted in the
source with `toISOString (date part, hyphens removed)`, is passed
in already formatted (see `formatDate`).
-/

/-- Embeds the name cleaning
`name.replace(/[^a-zA-Z0-9]/g, '').substring(0, 3).toUpperCase()`. -/
def cleanName (s : String) : String :=
  String.mk (((s.data.filter Char.isAlphanum).take 3).map Char.toUpper)

/-- The `YYYYMMDD` date string produced by
`toISOString (date part, hyphens removed)` for a (UTC) calendar
date with year `y`, month `m`, day `d` (`toISOString` zero-pads the
year to 4 and month/day to 2 digits for years 0–9999). -/
def formatDate (y m d : Nat) : String :=
  String.mk (padList 4 (natDigits y) ++ padList 2 (natDigits m) ++ padList 2 (natDigits d))

/-- One candidate code `SENDER_RECEIVER_DATE_SEQ` built in the loop body. -/
def bookingCandidate (cs cr dateStr : String) (seq : Nat) : String :=
  cs ++ "_" ++ cr ++ "_" ++ dateStr ++ "_" ++ pad 3 seq

/-- The `do … while (sequence <= 999)` probing loop: tries
`seq, seq+1, …` while fuel lasts, returning the first candidate not in
`existing`, or `none` when the fuel (999 at the top call) is spent. -/
def probeLoop (cs cr dateStr : String) (existing : String → Bool) :
    Nat → Nat → Option String
  | 0, _ => none
  | fuel + 1, seq =>
    let code := bookingCandidate cs cr dateStr seq
    if existing code then probeLoop cs cr dateStr existing fuel (seq + 1)
    else some code

/-- Embeds `generateBookingCode(senderName, receiverName, date)`;
`nowMs` stands for `Date.now()` in the timestamp fallback. -/
def generateBookingCode (senderName receiverName dateStr : String)
    (existing : String → Bool) (nowMs : Nat) : String :=
  let cs := cleanName senderName
  let cr := cleanName receiverName
  match probeLoop cs cr dateStr existing 999 1 with
  | some code => code
  | none =>
    cs ++ "_" ++ cr ++ "_" ++ dateStr ++ "_" ++ String.mk (takeLast 6 (natDigits nowMs))

/-- Decision procedure for the spec regex
`^[A-Z0-9]{0,3}_[A-Z0-9]{0,3}_\d{8}_(\d{3}|\d{6})$`: none of the
character classes contains `_`, so a string matches iff it decomposes
into four `_`-separated blocks of the stated classes and lengths. -/
def matchesBookingCodeRegex (s : String) : Bool :=
  let l := s.data
  let a := l.takeWhile isUpperAlnum
  match l.dropWhile isUpperAlnum with
  | '_' :: r1 =>
    let b := r1.takeWhile isUpperAlnum
    match r1.dropWhile isUpperAlnum with
    | '_' :: r2 =>
      let c := r2.takeWhile Char.isDigit
      match r2.dropWhile Char.isDigit with
      | '_' :: r3 =>
        decide (a.length ≤ 3) && decide (b.length ≤ 3) &&
        decide (c.length = 8) &&
        r3.all Char.isDigit && (decide (r3.length = 3) || decide (r3.length = 6))
      | _ => false
    | _ => false
  | _ => false

/-! ## Errors and shared helpers -/

/-- An HTTP-level error result: the status code and message a controller
responds with. -/
structure ApiErr where
  status : Nat
  msg : String
deriving DecidableEq, Repr

/-- `ApiError.badRequest` of the error utility.  Modelled from the spec:
`src/utils/api-error.ts` is not among the provided sources; the spec's
error taxonomy maps bad request → 400. -/
def ApiError.badRequest (m : String) : ApiErr := ⟨400, m⟩

/-- `ApiError.notFound`.  Modelled from the spec: not found → 404. -/
def ApiError.notFound (m : String) : ApiErr := ⟨404, m⟩

/-- `ApiError.conflict`.  Modelled from the spec: conflict (uniqueness
violation) → 409. -/
def ApiError.conflict (m : String) : ApiErr := ⟨409, m⟩

/-- Decidable equality of controller results, so that witnesses can be
checked by evaluation. -/
def exceptDecEq {ε α : Type} [DecidableEq ε] [DecidableEq α] :
    DecidableEq (Except ε α) := fun a b =>
  match a, b with
  | .error e, .error f =>
    if h : e = f then isTrue (by rw [h])
    else isFalse (by intro hh; cases hh; exact h rfl)
  | .error _, .ok _ => isFalse (by intro hh; cases hh)
  | .ok _, .error _ => isFalse (by intro hh; cases hh)
  | .ok x, .ok y =>
    if h : x = y then isTrue (by rw [h])
    else isFalse (by intro hh; cases hh; exact h rfl)

instance {ε α : Type} [DecidableEq ε] [DecidableEq α] : DecidableEq (Except ε α) :=
  exceptDecEq

/-- `Model.findById` over a collection keyed by id. -/
def lookupById (l : List (String × α)) (k : String) : Option α :=
  (l.find? (fun e => e.1 == k)).map (fun e => e.2)

/-- JavaScript truthiness of an optional string (absent, `null` and
`""` are falsy). -/
def strTruthy : Option String → Bool
  | none => false
  | some s => !(s == "")

/-- JavaScript `o || dflt` for an optional string field. -/
def strOr (o : Option String) (dflt : String) : String :=
  match o with
  | some s => if s == "" then dflt else s
  | none => dflt

/-- JavaScript falsiness of an optional number (absent and `0` are falsy). -/
def numFalsy : Option Int → Bool
  | none => true
  | some v => v == 0

/-- Field-wise merge used by the `if (x !== undefined) obj.x = x`
update pattern, for an optional stored field. -/
def mergeOpt (fresh old : Option α) : Option α :=
  match fresh with
  | some v => some v
  | none => old

/-- Embeds `String.prototype.trim()`: strip whitespace from both ends. -/
def strTrim (s : String) : String :=
  String.mk (((s.data.dropWhile Char.isWhitespace).reverse.dropWhile
    Char.isWhitespace).reverse)

/-- Embeds `Types.ObjectId.isValid` on strings: a 12-character string
(raw byte form) or 24 hexadecimal characters. -/
def isValidObjectId (s : String) : Bool :=
  s.length == 12 ||
    (s.length == 24 &&
      s.data.all (fun c =>
        c.isDigit || ('a' ≤ c && c ≤ 'f') || ('A' ≤ c && c ≤ 'F')))

/-! ## Booking creation and update

Embeds `createBooking` and `updateBooking` from
`src/controllers/booking.controller.ts`.  A JavaScript `Date` value is
modelled as its epoch-milliseconds timestamp together with the UTC
calendar fields `toISOString` would print (comparisons use the
timestamp, the booking-code generator uses the calendar fields).
-/

structure DateVal where
  ms : Int
  year : Nat
  month : Nat
  day : Nat
deriving DecidableEq, Repr

structure Branch where
  branchName : String
deriving DecidableEq, Repr

structure Customer where
  name : String
  customerType : String
  branches : List Branch
deriving DecidableEq, Repr

structure Booking where
  bookingCode : String
  sender : String
  receiver : String
  receiverBranch : Option String
  pickupPartner : String
  date : Int
  expectedReceivingDate : Int
  bundleCount : Int
  status : String
  repacking : String
  store : Option String
deriving DecidableEq, Repr

structure BookingPayload where
  sender : String
  receiver : String
  receiverBranch : Option String
  pickupPartner : String
  date : Option DateVal
  expectedReceivingDate : Option DateVal
  bundleCount : Option Int
  status : Option String
  repacking : Option String
  store : Option String
deriving DecidableEq, Repr

/-- The `['ready-to-ship', 'repacking-required'].includes(repacking)`
validation, triggered only by a truthy value on create. -/
def repackingInvalid (o : Option String) : Bool :=
  strTruthy o && !(["ready-to-ship", "repacking-required"].contains (o.getD ""))

/-- The required-fields test
`!sender || !receiver || !pickupPartner || !date || !expectedReceivingDate || !bundleCount`
(JavaScript falsiness: absent or empty strings, absent dates, absent or
zero bundle count). -/
def missingRequired (p : BookingPayload) : Bool :=
  p.sender == "" || p.receiver == "" || p.pickupPartner == "" ||
    p.date.isNone || p.expectedReceivingDate.isNone || numFalsy p.bundleCount

/-- Negation of the receiver-branch rejection condition
`receiverBranch && branches && branches.length > 0 && !branches.some(match)`. -/
def branchCheckPasses (rc : Customer) (p : BookingPayload) : Bool :=
  !(strTruthy p.receiverBranch && !rc.branches.isEmpty &&
    !rc.branches.any (fun b => b.branchName == p.receiverBranch.getD ""))

/-- Negation of the pickup-partner rejection condition
`pickupPartner !== 'Self' && pickupPartner !== 'Central' && !(await findById(...))`. -/
def pickupOk (partners : List String) (p : BookingPayload) : Bool :=
  p.pickupPartner == "Self" || p.pickupPartner == "Central" ||
    partners.contains p.pickupPartner

/-- Embeds `createBooking`.  `customers` and `partners` are the
`Customer` and `PickupPartner` collections (partners by id only, the
controller just probes existence), `existing`/`nowMs` feed the code
generator.  Absent request-body strings are `""` (falsy like
`undefined`). -/
def createBooking (customers : List (String × Customer)) (partners : List String)
    (existing : String → Bool) (nowMs : Nat) (p : BookingPayload) :
    Except ApiErr Booking :=
  if missingRequired p then
    .error (ApiError.badRequest "All required fields must be provided")
  else
    match lookupById customers p.sender with
    | none => .error (ApiError.badRequest "Sender customer not found")
    | some senderCustomer =>
      if !(senderCustomer.customerType == "Sender") then
        .error (ApiError.badRequest "Selected sender must be of type \"Sender\"")
      else
        match lookupById customers p.receiver with
        | none => .error (ApiError.badRequest "Receiver customer not found")
        | some receiverCustomer =>
          if !(receiverCustomer.customerType == "Receiver") then
            .error (ApiError.badRequest "Selected receiver must be of type \"Receiver\"")
          else if !branchCheckPasses receiverCustomer p then
            .error (ApiError.badRequest "Selected branch does not exist for this receiver")
          else if !pickupOk partners p then
            .error (ApiError.badRequest "Pickup partner not found")
          else
            match p.date, p.expectedReceivingDate, p.bundleCount with
            | some bookingDate, some expectedDate, some bundleCount =>
              if expectedDate.ms ≤ bookingDate.ms then
                .error (ApiError.badRequest "Expected receiving date must be after booking date")
              else if bundleCount < 1 then
                .error (ApiError.badRequest "Bundle count must be at least 1")
              else if repackingInvalid p.repacking then
                .error (ApiError.badRequest
                  "Invalid repacking status. Must be \"ready-to-ship\" or \"repacking-required\"")
              else
                .ok {
                  bookingCode := generateBookingCode senderCustomer.name receiverCustomer.name
                    (formatDate bookingDate.year bookingDate.month bookingDate.day) existing nowMs,
                  sender := p.sender,
                  receiver := p.receiver,
                  receiverBranch := if strTruthy p.receiverBranch then p.receiverBranch else none,
                  pickupPartner := p.pickupPartner,
                  date := bookingDate.ms,
                  expectedReceivingDate := expectedDate.ms,
                  bundleCount := bundleCount,
                  status := strOr p.status "pending",
                  repacking := strOr p.repacking "ready-to-ship",
                  store := if strTruthy p.store then p.store else none }
            | _, _, _ => .error (ApiError.badRequest "All required fields must be provided")

structure BookingUpdate where
  sender : Option String
  receiver : Option String
  receiverBranch : Option String
  pickupPartner : Option String
  date : Option Int
  expectedReceivingDate : Option Int
  bundleCount : Option Int
  status : Option String
  repacking : Option String
  store : Option String
deriving DecidableEq, Repr

/-- Embeds `updateBooking` on a booking already fetched by id (the
not-found branch is outside the scope of the claims): field-wise
validation of the supplied fields, then the date-ordering check — which
the source runs only when *both* `date` and `expectedReceivingDate`
appear in the update payload — then `Object.assign` and `save`. -/
def updateBooking (customers : List (String × Customer)) (partners : List String)
    (b : Booking) (u : BookingUpdate) : Except ApiErr Booking :=
  let senderCheck : Except ApiErr Unit :=
    match u.sender with
    | none => .ok ()
    | some s =>
      match lookupById customers s with
      | none => .error (ApiError.badRequest "Sender customer not found")
      | some c =>
        if !(c.customerType == "Sender") then
          .error (ApiError.badRequest "Selected sender must be of type \"Sender\"")
        else .ok ()
  match senderCheck with
  | .error e => .error e
  | .ok _ =>
    let receiverCheck : Except ApiErr Unit :=
      match u.receiver with
      | none => .ok ()
      | some r =>
        match lookupById customers r with
        | none => .error (ApiError.badRequest "Receiver customer not found")
        | some c =>
          if !(c.customerType == "Receiver") then
            .error (ApiError.badRequest "Selected receiver must be of type \"Receiver\"")
          else if strTruthy u.receiverBranch && !c.branches.isEmpty &&
              !c.branches.any (fun br => br.branchName == u.receiverBranch.getD "") then
            .error (ApiError.badRequest "Selected branch does not exist for this receiver")
          else .ok ()
    match receiverCheck with
    | .error e => .error e
    | .ok _ =>
      let partnerCheck : Except ApiErr Unit :=
        match u.pickupPartner with
        | none => .ok ()
        | some pp =>
          if !(pp == "Self") && !(pp == "Central") && !partners.contains pp then
            .error (ApiError.badRequest "Pickup partner not found")
          else .ok ()
      match partnerCheck with
      | .error e => .error e
      | .ok _ =>
        let repackingCheck : Except ApiErr Unit :=
          match u.repacking with
          | none => .ok ()
          | some rp =>
            if !(["ready-to-ship", "repacking-required"].contains rp) then
              .error (ApiError.badRequest
                "Invalid repacking status. Must be \"ready-to-ship\" or \"repacking-required\"")
            else .ok ()
        match repackingCheck with
        | .error e => .error e
        | .ok _ =>
          if u.date.isSome && u.expectedReceivingDate.isSome &&
              u.expectedReceivingDate.getD 0 ≤ u.date.getD 0 then
            .error (ApiError.badRequest "Expected receiving date must be after booking date")
          else
            .ok { b with
              sender := u.sender.getD b.sender,
              receiver := u.receiver.getD b.receiver,
              receiverBranch := mergeOpt u.receiverBranch b.receiverBranch,
              pickupPartner := u.pickupPartner.getD b.pickupPartner,
              date := u.date.getD b.date,
              expectedReceivingDate := u.expectedReceivingDate.getD b.expectedReceivingDate,
              bundleCount := u.bundleCount.getD b.bundleCount,
              status := u.status.getD b.status,
              repacking := u.repacking.getD b.repacking,
              store := mergeOpt u.store b.store }

/-! ## Containers

Embeds `generateContainerCode`, `createContainer` and `updateContainer`
from `src/controllers/container.controller.ts`.  `ContainerClock`
bundles what the controller reads off `new Date()`: the full year, the
1-based month (`getMonth() + 1`), and the epoch timestamps of the local
midnights bounding the current day (`startOfDay`/`endOfDay`).
-/

structure Container where
  containerCode : String
  companyName : String
  bookingDate : Int
  bookingCharge : Int
  advancePayment : Int
  balanceAmount : Int
  status : String
  createdAt : Nat
deriving DecidableEq, Repr

structure ContainerClock where
  year : Nat
  month : Nat
  startOfDay : Nat
  endOfDay : Nat
deriving DecidableEq, Repr

/-- `Container.findOne({ createdAt: { $gte: startOfDay, $lt: endOfDay } })
.sort({ createdAt: -1 })`: the container with the greatest `createdAt`
among those created today (first listed wins a tie). -/
def newerOf (acc : Option Container) (c : Container) : Option Container :=
  match acc with
  | none => some c
  | some b => if b.createdAt < c.createdAt then some c else some b

def lastCreatedToday (startD endD : Nat) (cs : List Container) : Option Container :=
  (cs.filter fun c => decide (startD ≤ c.createdAt) && decide (c.createdAt < endD)).foldl
    newerOf none

/-- `parseInt` on an all-or-leading-digits string: the value of the
leading digit run, `none` when there is none (`NaN`). -/
def parseIntFrom (l : List Char) : Option Nat :=
  let ds := l.takeWhile Char.isDigit
  if ds.isEmpty then none
  else some (ds.foldl (fun a c => 10 * a + (c.toNat - 48)) 0)

/-- Embeds `generateContainerCode`: prefix `CNT` + last two digits of
the year + 2-padded month, sequence from the last container created
today (`parseInt` of the last 4 characters of its code, plus one), or 1
when there is none.  `none` models the `NaN`-tainted code produced when
those characters do not start with a digit. -/
def generateContainerCode (clock : ContainerClock) (cs : List Container) : Option String :=
  let yy := String.mk (takeLast 2 (natDigits clock.year))
  let mm := pad 2 clock.month
  match lastCreatedToday clock.startOfDay clock.endOfDay cs with
  | none => some ("CNT" ++ yy ++ mm ++ pad 4 1)
  | some lastC =>
    if lastC.containerCode == "" then some ("CNT" ++ yy ++ mm ++ pad 4 1)
    else
      match parseIntFrom (takeLast 4 lastC.containerCode.data) with
      | none => none
      | some lastSeq => some ("CNT" ++ yy ++ mm ++ pad 4 (lastSeq + 1))

/-- Modelled from the spec: the container-code algorithm as the
specification words it — "compose prefix `CNT` + 2-digit year + 2-digit
month, scan containers whose code matches this year-month prefix, take
the highest existing numeric suffix (last 4 digits), increment,
zero-pad to 4 digits".  Stated only to be compared with
`generateContainerCode`, the algorithm the source implements. -/
def generateContainerCodeClaimed (clock : ContainerClock) (cs : List Container) : String :=
  let pre := "CNT" ++ String.mk (takeLast 2 (natDigits clock.year)) ++ pad 2 clock.month
  let suffixes := cs.filterMap (fun c =>
    if pre.data.isPrefixOf c.containerCode.data then
      parseIntFrom (takeLast 4 c.containerCode.data)
    else none)
  pre ++ pad 4 (suffixes.foldl max 0 + 1)

structure ContainerPayload where
  companyName : String
  bookingDate : Int
  bookingCharge : Int
  advancePayment : Option Int
  status : Option String
deriving DecidableEq, Repr

/-- Embeds `createContainer`: generate a code, compute
`balanceAmount = bookingCharge - advancePayment` (`advancePayment`
defaults to 0 when absent), then `save()`.  A duplicate-key failure of
the save — the unique index on `containerCode` is declared in the
container model, which is not among the provided sources and is
modelled from the spec ("`containerCode` unique, generated") — is
answered with status 400 and no retry; other save failures with 500. -/
def createContainer (clock : ContainerClock) (cs : List Container)
    (p : ContainerPayload) (createdAt : Nat) : Except ApiErr Container :=
  match generateContainerCode clock cs with
  | none => .error ⟨500, "Failed to create container"⟩
  | some containerCode =>
    if cs.any (fun e => e.containerCode == containerCode) then
      .error ⟨400, "Container code already exists"⟩
    else
      .ok {
        containerCode := containerCode,
        companyName := p.companyName,
        bookingDate := p.bookingDate,
        bookingCharge := p.bookingCharge,
        advancePayment := p.advancePayment.getD 0,
        balanceAmount := p.bookingCharge - p.advancePayment.getD 0,
        status := p.status.getD "pending",
        createdAt := createdAt }

structure ContainerUpdate where
  companyName : Option String
  bookingDate : Option Int
  bookingCharge : Option Int
  advancePayment : Option Int
  status : Option String
deriving DecidableEq, Repr

/-- Embeds `updateContainer` for a given id whose current document is
`stored` (`none` when the id resolves to nothing).  `containerCode` is
deleted from the update data.  When the payload touches `bookingCharge`
or `advancePayment` the controller re-fetches the stored document,
takes `payload ?? stored` for each of the two fields and recomputes
`balanceAmount`; otherwise `balanceAmount` is left untouched. -/
def updateContainer (stored : Option Container) (u : ContainerUpdate) :
    Except ApiErr Container :=
  if u.bookingCharge.isSome || u.advancePayment.isSome then
    match stored with
    | none => .error ⟨404, "Container not found"⟩
    | some cur =>
      .ok { cur with
        companyName := u.companyName.getD cur.companyName,
        bookingDate := u.bookingDate.getD cur.bookingDate,
        bookingCharge := u.bookingCharge.getD cur.bookingCharge,
        advancePayment := u.advancePayment.getD cur.advancePayment,
        balanceAmount :=
          u.bookingCharge.getD cur.bookingCharge - u.advancePayment.getD cur.advancePayment,
        status := u.status.getD cur.status }
  else
    match stored with
    | none => .error ⟨404, "Container not found"⟩
    | some cur =>
      .ok { cur with
        companyName := u.companyName.getD cur.companyName,
        bookingDate := u.bookingDate.getD cur.bookingDate,
        status := u.status.getD cur.status }

/-! ## Packing lists and bundles

Embeds `createPackingList` and `deletePackingList` from
`src/controllers/packing-list.controller.ts` and `createBundle` from
`src/controllers/bundle.controller.ts`.  Documents are identified by
plain string ids.
-/

structure Product where
  id : String
  productName : String
  productQuantity : Int
  fabric : String
  description : String
deriving DecidableEq, Repr

structure Bundle where
  packingList : String
  bundleNumber : String
  description : Option String
  quantity : Int
  netWeight : Option Int
  grossWeight : Option Int
  actualCount : Option Int
  status : String
  products : List Product
  priority : Option String
  readyToShipStatus : String
  container : Option String
deriving DecidableEq, Repr

structure PackingList where
  id : String
  packingListCode : String
  bookingReference : String
  netWeight : Option Int
  grossWeight : Option Int
  packedBy : Option String
  plannedBundleCount : Int
  actualBundleCount : Int
  packingStatus : String
deriving DecidableEq, Repr

def findPL (pls : List PackingList) (id : String) : Option PackingList :=
  pls.find? (fun pl => pl.id == id)

/-- One element of the `bundles` array accepted by the packing-list
endpoints; the controller normalises `bundleNumber` with
`?.toString() || ''` and defaults `status`/`products`. -/
structure BundleInit where
  bundleNumber : Option String
  description : Option String
  quantity : Int
  netWeight : Option Int
  grossWeight : Option Int
  actualCount : Option Int
  status : Option String
  products : Option (List Product)
deriving DecidableEq, Repr

def mkBundle (plId : String) (i : BundleInit) : Bundle :=
  { packingList := plId,
    bundleNumber := strOr i.bundleNumber "",
    description := i.description,
    quantity := i.quantity,
    netWeight := i.netWeight,
    grossWeight := i.grossWeight,
    actualCount := i.actualCount,
    status := strOr i.status "pending",
    products := i.products.getD [],
    priority := none,
    readyToShipStatus := "pending",
    container := none }

structure PackingListPayload where
  bookingReference : String
  netWeight : Option Int
  grossWeight : Option Int
  packedBy : Option String
  plannedBundleCount : Int
  actualBundleCount : Option Int
  packingStatus : Option String
  bundles : Option (List BundleInit)
deriving DecidableEq, Repr

/-- Embeds `createPackingList`: the booking must exist, at most one
packing list per booking (probed by `findOne`, answered with
`ApiError.conflict`), then the list and its bundles are created.
`newId`/`newCode` stand for the generated document id and the
`PL-<year>-<seq>` code assigned by the model's pre-save hook. -/
def createPackingList (bookings : List String) (pls : List PackingList)
    (newId newCode : String) (p : PackingListPayload) :
    Except ApiErr (PackingList × List Bundle) :=
  if !bookings.contains p.bookingReference then
    .error (ApiError.badRequest "Invalid booking reference")
  else if pls.any (fun q => q.bookingReference == p.bookingReference) then
    .error (ApiError.conflict "Packing list already exists for this booking")
  else
    .ok ({
      id := newId,
      packingListCode := newCode,
      bookingReference := p.bookingReference,
      netWeight := p.netWeight,
      grossWeight := p.grossWeight,
      packedBy := p.packedBy,
      plannedBundleCount := p.plannedBundleCount,
      actualBundleCount := (p.actualBundleCount.getD 0),
      packingStatus := strOr p.packingStatus "pending" },
      (p.bundles.getD []).map (mkBundle newId))

/-- Embeds `deletePackingList` as a transition on the full
packing-list/bundle state: 404 when the id is unknown, a 400 rejection
for a completed list, otherwise `Bundle.deleteMany({ packingList })`
followed by deletion of the list itself.  The error branches leave the
state untouched (they throw before any delete). -/
def deletePackingList (pls : List PackingList) (bundles : List Bundle) (id : String) :
    Except ApiErr Unit × List PackingList × List Bundle :=
  match findPL pls id with
  | none => (.error (ApiError.notFound "Packing list not found"), pls, bundles)
  | some pl =>
    if pl.packingStatus == "completed" then
      (.error (ApiError.badRequest "Cannot delete completed packing lists"), pls, bundles)
    else
      (.ok (),
       pls.filter (fun q => !(q.id == pl.id)),
       bundles.filter (fun b => !(b.packingList == pl.id)))

structure BundlePayload where
  packingListId : String
  bundleNumber : String
  description : Option String
  quantity : Int
  netWeight : Option Int
  grossWeight : Option Int
  actualCount : Option Int
  status : Option String
  products : Option (List Product)
deriving DecidableEq, Repr

/-- Embeds `createBundle`: the packing list must exist, and the
`(packingList, bundleNumber)` pair must be free (probed by `findOne`,
answered with `ApiError.conflict`). -/
def createBundle (pls : List PackingList) (bundles : List Bundle) (p : BundlePayload) :
    Except ApiErr Bundle :=
  match findPL pls p.packingListId with
  | none => .error (ApiError.badRequest "Invalid packing list ID")
  | some _ =>
    if bundles.any (fun b =>
        b.packingList == p.packingListId && b.bundleNumber == p.bundleNumber) then
      .error (ApiError.conflict
        ("Bundle number " ++ p.bundleNumber ++ " already exists for this packing list"))
    else
      .ok { packingList := p.packingListId,
            bundleNumber := p.bundleNumber,
            description := p.description,
            quantity := p.quantity,
            netWeight := p.netWeight,
            grossWeight := p.grossWeight,
            actualCount := p.actualCount,
            status := strOr p.status "pending",
            products := p.products.getD [],
            priority := none,
            readyToShipStatus := "pending",
            container := none }

/-! ## Ready-to-Ship gate

Embeds `getReadyToShipBundle` and `updateReadyToShipBundle` from
`src/controllers/ready-to-ship.controller.ts`, on the bundle the id
resolves to (`none` when it resolves to nothing).
-/

/-- Embeds `getReadyToShipBundle`: 404 when absent, a 400 rejection
unless the bundle's `status` is `completed`. -/
def getReadyToShipBundle (b : Option Bundle) : Except ApiErr Bundle :=
  match b with
  | none => .error (ApiError.notFound "Bundle not found")
  | some bundle =>
    if !(bundle.status == "completed") then
      .error (ApiError.badRequest
        "Bundle is not in completed status and cannot be viewed in Ready to Ship")
    else .ok bundle

structure RtsPayload where
  bundleNumber : Option String
  description : Option String
  quantity : Option Int
  netWeight : Option Int
  grossWeight : Option Int
  actualCount : Option Int
  products : Option (List Product)
  priority : Option String
  readyToShipStatus : Option String
  container : Option String
deriving DecidableEq, Repr

/-- Embeds `updateReadyToShipBundle`: rejected with 400 unless the
bundle is `completed`; supplied fields are written; the `container`
reference is set (after `ObjectId` validation) only when the incoming
`readyToShipStatus` is `stuffed` or `dispatched` and a non-empty
container was supplied, and is cleared whenever the incoming status —
including an absent one — is neither `stuffed` nor `dispatched`. -/
def updateReadyToShipBundle (b : Option Bundle) (p : RtsPayload) : Except ApiErr Bundle :=
  match b with
  | none => .error (ApiError.notFound "Bundle not found")
  | some bundle =>
    if !(bundle.status == "completed") then
      .error (ApiError.badRequest
        "Bundle is not in completed status and cannot be updated in Ready to Ship")
    else
      let b1 := { bundle with
        bundleNumber := p.bundleNumber.getD bundle.bundleNumber,
        description := mergeOpt p.description bundle.description,
        quantity := p.quantity.getD bundle.quantity,
        netWeight := mergeOpt p.netWeight bundle.netWeight,
        grossWeight := mergeOpt p.grossWeight bundle.grossWeight,
        actualCount := mergeOpt p.actualCount bundle.actualCount,
        products := p.products.getD bundle.products,
        priority := mergeOpt p.priority bundle.priority,
        readyToShipStatus := p.readyToShipStatus.getD bundle.readyToShipStatus }
      let rts := p.readyToShipStatus
      if (rts == some "stuffed" || rts == some "dispatched") &&
          p.container.isSome && !(p.container.getD "" == "") then
        if !isValidObjectId (p.container.getD "") then
          .error (ApiError.badRequest "Invalid container ID")
        else .ok { b1 with container := some (p.container.getD "") }
      else if !(rts == some "stuffed") && !(rts == some "dispatched") then
        .ok { b1 with container := none }
      else
        .ok b1

/-! ## Price listings

Embeds `createPriceListing` and `updatePriceListing` from
`src/controllers/price-listing.controller.ts`.  `partners` is the
`DeliveryPartner` collection, keyed by id.
-/

structure DeliveryPartner where
  price : Int
deriving DecidableEq, Repr

structure PriceListing where
  fromCountry : String
  toCountry : String
  deliveryPartnerId : Option String
  amount : Int
  totalAmount : Int
  status : String
deriving DecidableEq, Repr

structure PriceListingPayload where
  fromCountry : String
  toCountry : String
  deliveryPartnerId : Option String
  amount : Option Int
  status : Option String
deriving DecidableEq, Repr

/-- Embeds `createPriceListing`: required-field check (`amount` by
`=== undefined`, the countries by truthiness), then
`totalAmount = amount`, plus the partner's `price` — looked up now,
missing partner rejected — when a truthy `deliveryPartnerId` was
supplied. -/
def createPriceListing (partners : List (String × DeliveryPartner))
    (p : PriceListingPayload) : Except ApiErr PriceListing :=
  if p.fromCountry == "" || p.toCountry == "" || p.amount.isNone then
    .error (ApiError.badRequest "From country, to country, and amount are required")
  else
    match p.amount with
    | none => .error (ApiError.badRequest "From country, to country, and amount are required")
    | some amount =>
      if strTruthy p.deliveryPartnerId then
        match lookupById partners (p.deliveryPartnerId.getD "") with
        | none => .error (ApiError.badRequest "Invalid delivery partner selected")
        | some dp =>
          .ok { fromCountry := strTrim p.fromCountry,
                toCountry := strTrim p.toCountry,
                deliveryPartnerId := p.deliveryPartnerId,
                amount := amount,
                totalAmount := amount + dp.price,
                status := strOr p.status "Active" }
      else
        .ok { fromCountry := strTrim p.fromCountry,
              toCountry := strTrim p.toCountry,
              deliveryPartnerId := none,
              amount := amount,
              totalAmount := amount,
              status := strOr p.status "Active" }

structure PriceListingUpdate where
  fromCountry : Option String
  toCountry : Option String
  deliveryPartnerId : Option String
  amount : Option Int
  status : Option String
deriving DecidableEq, Repr

/-- Embeds `updatePriceListing` on the listing the id resolved to.
When the payload touches `amount` or `deliveryPartnerId`, the effective
amount and partner id are `payload-if-present else stored`, and
`totalAmount` is recomputed — with the partner's price looked up fresh
— whenever the effective partner id is truthy.  A supplied empty
partner id clears the reference. -/
def updatePriceListing (partners : List (String × DeliveryPartner))
    (stored : PriceListing) (u : PriceListingUpdate) : Except ApiErr PriceListing :=
  let base := { stored with
    fromCountry := u.fromCountry.getD stored.fromCountry,
    toCountry := u.toCountry.getD stored.toCountry,
    deliveryPartnerId :=
      match u.deliveryPartnerId with
      | some v => if v == "" then none else some v
      | none => stored.deliveryPartnerId,
    amount := u.amount.getD stored.amount,
    status := u.status.getD stored.status }
  if u.amount.isSome || u.deliveryPartnerId.isSome then
    let amount := u.amount.getD stored.amount
    let partnerId :=
      match u.deliveryPartnerId with
      | some v => v
      | none => stored.deliveryPartnerId.getD ""
    if !(partnerId == "") then
      match lookupById partners partnerId with
      | none => .error (ApiError.badRequest "Invalid delivery partner selected")
      | some dp => .ok { base with totalAmount := amount + dp.price }
    else
      .ok { base with totalAmount := amount }
  else
    .ok base

/-! ## Concrete fixtures used by witnesses and counterexamples -/

/-- A completed bundle with a container already assigned. -/
def bundleFx : Bundle :=
  { packingList := "pl1", bundleNumber := "B1", description := none, quantity := 5,
    netWeight := none, grossWeight := none, actualCount := none, status := "completed",
    products := [], priority := none, readyToShipStatus := "pending",
    container := some "aaaaaaaaaaaaaaaaaaaaaaaa" }

/-- An empty ready-to-ship update payload. -/
def rtsEmpty : RtsPayload :=
  { bundleNumber := none, description := none, quantity := none, netWeight := none,
    grossWeight := none, actualCount := none, products := none, priority := none,
    readyToShipStatus := none, container := none }

/-- A packing list with a chosen `packingStatus`. -/
def plFx (st : String) : PackingList :=
  { id := "pl1", packingListCode := "PL-2024-001", bookingReference := "bk1",
    netWeight := none, grossWeight := none, packedBy := none,
    plannedBundleCount := 2, actualBundleCount := 0, packingStatus := st }

/-- Two bundles, one owned by `pl1` and one by `pl2`. -/
def bundlesFx : List Bundle := [bundleFx, { bundleFx with packingList := "pl2" }]

/-- A clock for the container controller: October 2025, the current day
spanning timestamps 100–200. -/
def clockFx : ContainerClock :=
  { year := 2025, month := 10, startOfDay := 100, endOfDay := 200 }

/-- The spec's container scenario payload: `bookingCharge = 1000`,
`advancePayment = 300`. -/
def cpayFx : ContainerPayload :=
  { companyName := "ACME", bookingDate := 0, bookingCharge := 1000,
    advancePayment := some 300, status := none }

/-- The container the scenario creates. -/
def contFx : Container :=
  { containerCode := "CNT25100001", companyName := "ACME", bookingDate := 0,
    bookingCharge := 1000, advancePayment := 300, balanceAmount := 700,
    status := "pending", createdAt := 150 }

/-- One delivery partner with price 50. -/
def partnersFx : List (String × DeliveryPartner) := [("dp1", { price := 50 })]

/-- Customers: a sender, a receiver, and a receiver sitting in the
sender slot of bad requests. -/
def customersFx : List (String × Customer) :=
  [("s1", { name := "Acme Traders", customerType := "Sender", branches := [] }),
   ("r1", { name := "Global Imports", customerType := "Receiver", branches := [] })]

/-- One pickup partner id. -/
def pickupFx : List String := ["pp1"]

/-- A fully valid booking payload (spec scenario: dates 2024-01-10 and
2024-01-20, 5 bundles). -/
def bpayFx : BookingPayload :=
  { sender := "s1", receiver := "r1", receiverBranch := none, pickupPartner := "Self",
    date := some { ms := 1704844800000, year := 2024, month := 1, day := 10 },
    expectedReceivingDate := some { ms := 1705708800000, year := 2024, month := 1, day := 20 },
    bundleCount := some 5, status := none, repacking := none, store := none }

/-- A stored booking used by the update claims. -/
def bookingFx : Booking :=
  { bookingCode := "ACM_GLO_20240110_001", sender := "s1", receiver := "r1",
    receiverBranch := none, pickupPartner := "Self", date := 0,
    expectedReceivingDate := 10, bundleCount := 1, status := "pending",
    repacking := "ready-to-ship", store := none }

/-- A booking update supplying nothing at all. -/
def bupdEmpty : BookingUpdate :=
  { sender := none, receiver := none, receiverBranch := none, pickupPartner := none,
    date := none, expectedReceivingDate := none, bundleCount := none,
    status := none, repacking := none, store := none }

/-- The degenerate database state in which every probed booking code
already exists. -/
def allCodesExist : String → Bool := fun _ => true

/-- A stored price listing that references `dp1`. -/
def priceListingFx : PriceListing :=
  { fromCountry := "IN", toCountry := "AE", deliveryPartnerId := some "dp1",
    amount := 100, totalAmount := 150, status := "Active" }

/-- A container created today (createdAt 150) whose code carries
suffix 0002. -/
def contDupA : Container :=
  { containerCode := "CNT25100002", companyName := "A", bookingDate := 0,
    bookingCharge := 0, advancePayment := 0, balanceAmount := 0,
    status := "pending", createdAt := 150 }

/-- A container created later today (createdAt 160) whose code carries
suffix 0001, so the generator increments 1, colliding with `contDupA`. -/
def contDupB : Container :=
  { containerCode := "CNT25100001", companyName := "B", bookingDate := 0,
    bookingCharge := 0, advancePayment := 0, balanceAmount := 0,
    status := "pending", createdAt := 160 }

/-- A container created yesterday (createdAt 50, before `startOfDay`)
whose code matches this month's prefix with suffix 0007. -/
def contOldFx : Container :=
  { containerCode := "CNT25100007", companyName := "C", bookingDate := 0,
    bookingCharge := 0, advancePayment := 0, balanceAmount := 0,
    status := "pending", createdAt := 50 }

/-- A bundle-creation payload colliding with `bundleFx` on
`(packingList, bundleNumber)`. -/
def bpayDupFx : BundlePayload :=
  { packingListId := "pl1", bundleNumber := "B1", description := none,
    quantity := 1, netWeight := none, grossWeight := none, actualCount := none,
    status := none, products := none }

/-- A packing-list payload referencing the booking `plFx` already
references. -/
def plpayDupFx : PackingListPayload :=
  { bookingReference := "bk1", netWeight := none, grossWeight := none,
    packedBy := none, plannedBundleCount := 1, actualBundleCount := none,
    packingStatus := none, bundles := none }

/-!
# Theorems

One theorem per claim of the specification, with witnesses
instantiating the hypothesised statements on concrete inputs.
-/

/-- C4: Ready-to-Ship view and edit are rejected unless the bundle is
`completed`; for a completed bundle, an update with `readyToShipStatus`
`stuffed` or `dispatched` and a syntactically valid container id sets
the container field, and an update whose `readyToShipStatus` is neither
clears any existing container reference. -/
theorem C4_ready_to_ship_gate (bundle : Bundle) (p : RtsPayload) :
    (bundle.status ≠ "completed" →
      getReadyToShipBundle (some bundle) =
        .error (ApiError.badRequest
          "Bundle is not in completed status and cannot be viewed in Ready to Ship") ∧
      updateReadyToShipBundle (some bundle) p =
        .error (ApiError.badRequest
          "Bundle is not in completed status and cannot be updated in Ready to Ship")) ∧
    (∀ cid : String,
      bundle.status = "completed" →
      (p.readyToShipStatus = some "stuffed" ∨ p.readyToShipStatus = some "dispatched") →
      p.container = some cid → cid ≠ "" → isValidObjectId cid = true →
      ∃ b', updateReadyToShipBundle (some bundle) p = .ok b' ∧ b'.container = some cid) ∧
    (∀ s : String,
      bundle.status = "completed" →
      p.readyToShipStatus = some s → s ≠ "stuffed" → s ≠ "dispatched" →
      ∃ b', updateReadyToShipBundle (some bundle) p = .ok b' ∧ b'.container = none) := by
  refine ⟨fun hne => ?_, fun cid hc hrts hcont hne hvalid => ?_, fun s hc hrts hs hd => ?_⟩
  · have hb : (bundle.status == "completed") = false := by
      simp [hne]
    constructor
    · simp [getReadyToShipBundle, hb]
    · simp [updateReadyToShipBundle, hb]
  · have hb : (bundle.status == "completed") = true := by simp [hc]
    rcases hrts with h | h <;>
      simp [updateReadyToShipBundle, hb, h, hcont, hne, hvalid]
  · have hb : (bundle.status == "completed") = true := by simp [hc]
    have h1 : (p.readyToShipStatus == some "stuffed") = false := by simp [hrts, hs]
    have h2 : (p.readyToShipStatus == some "dispatched") = false := by simp [hrts, hd]
    simp [updateReadyToShipBundle, hb, h1, h2]

/-- C4 witness: the spec's scenario on concrete bundles — a pending
bundle is rejected, a completed one accepts a `stuffed` update with a
valid container id (container set), and a `pending` update clears the
container. -/
theorem C4_ready_to_ship_gate_witness :
    (getReadyToShipBundle (some { bundleFx with status := "pending" }) =
      .error (ApiError.badRequest
        "Bundle is not in completed status and cannot be viewed in Ready to Ship")) ∧
    (∃ b', updateReadyToShipBundle (some bundleFx)
        { rtsEmpty with readyToShipStatus := some "stuffed",
                        container := some "bbbbbbbbbbbbbbbbbbbbbbbb" } = .ok b' ∧
      b'.container = some "bbbbbbbbbbbbbbbbbbbbbbbb") ∧
    (∃ b', updateReadyToShipBundle (some bundleFx)
        { rtsEmpty with readyToShipStatus := some "pending" } = .ok b' ∧
      b'.container = none) := by
  refine ⟨?_, ?_, ?_⟩
  · exact ((C4_ready_to_ship_gate { bundleFx with status := "pending" } rtsEmpty).1
      (by decide)).1
  · exact (C4_ready_to_ship_gate bundleFx
      { rtsEmpty with readyToShipStatus := some "stuffed",
                      container := some "bbbbbbbbbbbbbbbbbbbbbbbb" }).2.1
      "bbbbbbbbbbbbbbbbbbbbbbbb" (by decide) (Or.inl rfl) rfl (by decide) (by decide)
  · exact (C4_ready_to_ship_gate bundleFx
      { rtsEmpty with readyToShipStatus := some "pending" }).2.2
      "pending" (by decide) rfl (by decide) (by decide)

/-- C10: a Ready-to-Ship update of a completed bundle whose payload
omits `readyToShipStatus` entirely clears the bundle's existing
container reference, whatever the payload's `container` field is. -/
theorem C10_absent_status_clears_container (bundle : Bundle) (p : RtsPayload) :
    bundle.status = "completed" → p.readyToShipStatus = none →
    ∃ b', updateReadyToShipBundle (some bundle) p = .ok b' ∧ b'.container = none := by
  intro hc hrts
  have hb : (bundle.status == "completed") = true := by simp [hc]
  simp [updateReadyToShipBundle, hb, hrts]

/-- C10 witness: a completed bundle that has a container assigned loses
it under an update that supplies a container id but no
`readyToShipStatus`. -/
theorem C10_absent_status_clears_container_witness :
    ∃ b', updateReadyToShipBundle (some bundleFx)
        { rtsEmpty with container := some "bbbbbbbbbbbbbbbbbbbbbbbb" } = .ok b' ∧
      b'.container = none :=
  C10_absent_status_clears_container bundleFx
    { rtsEmpty with container := some "bbbbbbbbbbbbbbbbbbbbbbbb" } (by decide) rfl

/-- C7: deleting a completed packing list is rejected with a 400-class
error and the state (the packing list and all bundles) is unchanged;
deleting a non-completed one succeeds, removes the list, and removes
exactly the bundles whose `packingList` reference is that list. -/
theorem C7_packing_list_deletion (pls : List PackingList) (bundles : List Bundle)
    (id : String) (pl : PackingList) (hfind : findPL pls id = some pl) :
    (pl.packingStatus = "completed" →
      deletePackingList pls bundles id =
        (.error (ApiError.badRequest "Cannot delete completed packing lists"),
          pls, bundles)) ∧
    (pl.packingStatus ≠ "completed" →
      deletePackingList pls bundles id =
        (.ok (), pls.filter (fun q => !(q.id == pl.id)),
          bundles.filter (fun b => !(b.packingList == pl.id)))) := by
  constructor <;> intro h <;> simp [deletePackingList, hfind, h]

/-- C7 witness: a completed list is kept together with its bundles; a
pending list is deleted along with exactly its own bundle. -/
theorem C7_packing_list_deletion_witness :
    (deletePackingList [plFx "completed"] bundlesFx "pl1" =
      (.error (ApiError.badRequest "Cannot delete completed packing lists"),
        [plFx "completed"], bundlesFx)) ∧
    (deletePackingList [plFx "pending"] bundlesFx "pl1" =
      (.ok (), [], [{ bundleFx with packingList := "pl2" }])) := by
  constructor
  · exact (C7_packing_list_deletion [plFx "completed"] bundlesFx "pl1"
      (plFx "completed") (by decide)).1 rfl
  · exact ((C7_packing_list_deletion [plFx "pending"] bundlesFx "pl1"
      (plFx "pending") (by decide)).2 (by decide)).trans (by decide)

/-- C2: every container create persists
`balanceAmount = bookingCharge − advancePayment` (with the payload's
absent `advancePayment` defaulting to 0), and every update touching
`bookingCharge` or `advancePayment` persists the difference of the
effective pair, the field absent from the payload being taken from the
stored document. -/
theorem C2_container_balance (clock : ContainerClock) (cs : List Container)
    (p : ContainerPayload) (createdAt : Nat) (stored : Container) (u : ContainerUpdate) :
    (∀ cont, createContainer clock cs p createdAt = .ok cont →
      cont.balanceAmount = p.bookingCharge - p.advancePayment.getD 0) ∧
    ((u.bookingCharge.isSome ∨ u.advancePayment.isSome) →
      ∀ cont, updateContainer (some stored) u = .ok cont →
        cont.balanceAmount =
          u.bookingCharge.getD stored.bookingCharge -
            u.advancePayment.getD stored.advancePayment) := by
  constructor
  · intro cont h
    cases hg : generateContainerCode clock cs with
    | none => simp [createContainer, hg] at h
    | some code =>
      simp only [createContainer, hg] at h
      split at h
      · exact absurd h (by simp)
      · cases h; rfl
  · intro htouch cont h
    have ht : (u.bookingCharge.isSome || u.advancePayment.isSome) = true := by
      rcases htouch with h' | h' <;> simp [h']
    simp only [updateContainer, ht, if_true] at h
    cases h; rfl

/-- C2 witness: the spec's scenario — create with `bookingCharge=1000`,
`advancePayment=300` gives `balanceAmount=700`; an update supplying only
`advancePayment=500` recomputes `balanceAmount=500` against the stored
`bookingCharge=1000`. -/
theorem C2_container_balance_witness :
    (createContainer clockFx [] cpayFx 150 = .ok contFx ∧ contFx.balanceAmount = 700) ∧
    (∃ cont, updateContainer (some contFx)
        { companyName := none, bookingDate := none, bookingCharge := none,
          advancePayment := some 500, status := none } = .ok cont ∧
      cont.balanceAmount = 500) := by
  have hc : createContainer clockFx [] cpayFx 150 = .ok contFx := by decide
  have hu : updateContainer (some contFx)
      { companyName := none, bookingDate := none, bookingCharge := none,
        advancePayment := some 500, status := none } =
      .ok { contFx with advancePayment := 500, balanceAmount := 500 } := by decide
  refine ⟨⟨hc, ?_⟩, ⟨_, hu, ?_⟩⟩
  · exact ((C2_container_balance clockFx [] cpayFx 150 contFx
      { companyName := none, bookingDate := none, bookingCharge := none,
        advancePayment := some 500, status := none }).1 contFx hc).trans (by decide)
  · exact (((C2_container_balance clockFx [] cpayFx 150 contFx
      { companyName := none, bookingDate := none, bookingCharge := none,
        advancePayment := some 500, status := none }).2 (Or.inr (by decide)) _ hu)).trans
      (by decide)

/-- C8: every price-listing create, and every update touching `amount`
or `deliveryPartnerId`, persists `totalAmount = amount + price` of the
partner the persisted `deliveryPartnerId` references — looked up fresh
in the current `DeliveryPartner` collection — and
`totalAmount = amount` when no partner is set.  The hypothesis on
`stored` is the state invariant that a persisted reference is never the
empty string (creation stores `none` instead, updates clear it to
`none`). -/
theorem C8_price_listing_total (partners : List (String × DeliveryPartner))
    (p : PriceListingPayload) (stored : PriceListing) (u : PriceListingUpdate)
    (hstored : stored.deliveryPartnerId ≠ some "") :
    (∀ pl, createPriceListing partners p = .ok pl →
      (∀ dpid, pl.deliveryPartnerId = some dpid →
        ∃ dp, lookupById partners dpid = some dp ∧
          pl.totalAmount = pl.amount + dp.price) ∧
      (pl.deliveryPartnerId = none → pl.totalAmount = pl.amount)) ∧
    ((u.amount.isSome ∨ u.deliveryPartnerId.isSome) →
      ∀ pl, updatePriceListing partners stored u = .ok pl →
        (∀ dpid, pl.deliveryPartnerId = some dpid →
          ∃ dp, lookupById partners dpid = some dp ∧
            pl.totalAmount = pl.amount + dp.price) ∧
        (pl.deliveryPartnerId = none → pl.totalAmount = pl.amount)) := by
  constructor
  · intro pl h
    simp only [createPriceListing] at h
    split at h
    · exact absurd h (by simp)
    · split at h
      · exact absurd h (by simp)
      · rename_i amount hamt
        split at h
        · rename_i hdp
          split at h
          · exact absurd h (by simp)
          · rename_i dp hlook
            cases h
            refine ⟨fun dpid heq => ⟨dp, ?_, rfl⟩, fun heq => ?_⟩
            · simp only at heq
              rw [heq] at hlook
              simpa using hlook
            · simp only at heq
              rw [heq] at hdp
              simp [strTruthy] at hdp
        · rename_i hdp
          cases h
          exact ⟨fun dpid heq => by simp at heq, fun _ => rfl⟩
  · intro htouch pl h
    have ht : (u.amount.isSome || u.deliveryPartnerId.isSome) = true := by
      rcases htouch with h' | h' <;> simp [h']
    simp only [updatePriceListing] at h
    rw [if_pos ht] at h
    cases hu : u.deliveryPartnerId with
    | some v =>
      by_cases hv : v = ""
      · subst hv
        simp [hu] at h
        obtain ⟨rfl⟩ := h
        exact ⟨fun dpid heq => by simp at heq, fun _ => rfl⟩
      · have hvb : ((v == "") = false) := by simp [hv]
        cases hlook : lookupById partners v with
        | none =>
          simp [hu, hvb, hlook] at h
        | some dp =>
          simp [hu, hvb, hlook] at h
          obtain ⟨rfl⟩ := h
          refine ⟨fun dpid heq => ?_, fun heq => ?_⟩
          · simp only [hv, if_false] at heq
            cases heq
            exact ⟨dp, hlook, rfl⟩
          · simp [hv] at heq
    | none =>
      cases hsd : stored.deliveryPartnerId with
      | none =>
        simp [hu, hsd] at h
        obtain ⟨rfl⟩ := h
        exact ⟨fun dpid heq => by simp at heq, fun _ => rfl⟩
      | some w =>
        have hw : w ≠ "" := fun hww => hstored (by rw [hsd, hww])
        have hwb : ((w == "") = false) := by simp [hw]
        cases hlook : lookupById partners w with
        | none =>
          simp [hu, hsd, hwb, hlook] at h
        | some dp =>
          simp [hu, hsd, hwb, hlook] at h
          obtain ⟨rfl⟩ := h
          refine ⟨fun dpid heq => ?_, fun heq => ?_⟩
          · simp only at heq
            cases heq
            exact ⟨dp, hlook, rfl⟩
          · simp at heq

/-- C8 witness: with a partner of price 50, a create with
`amount = 100` and that partner persists `totalAmount = 150`; an update
of the stored listing supplying only `amount = 200` recomputes
`totalAmount = 250` with the partner's price looked up fresh. -/
theorem C8_price_listing_total_witness :
    (∃ pl, createPriceListing partnersFx
        { fromCountry := "IN", toCountry := "AE", deliveryPartnerId := some "dp1",
          amount := some 100, status := none } = .ok pl ∧
      pl.totalAmount = pl.amount + 50 ∧ pl.totalAmount = 150) ∧
    (∃ pl, updatePriceListing partnersFx priceListingFx
        { fromCountry := none, toCountry := none, deliveryPartnerId := none,
          amount := some 200, status := none } = .ok pl ∧
      pl.totalAmount = pl.amount + 50 ∧ pl.totalAmount = 250) := by
  have hc : createPriceListing partnersFx
      { fromCountry := "IN", toCountry := "AE", deliveryPartnerId := some "dp1",
        amount := some 100, status := none } =
      .ok { fromCountry := "IN", toCountry := "AE", deliveryPartnerId := some "dp1",
            amount := 100, totalAmount := 150, status := "Active" } := by decide
  have hup : updatePriceListing partnersFx priceListingFx
      { fromCountry := none, toCountry := none, deliveryPartnerId := none,
        amount := some 200, status := none } =
      .ok { fromCountry := "IN", toCountry := "AE", deliveryPartnerId := some "dp1",
            amount := 200, totalAmount := 250, status := "Active" } := by decide
  constructor
  · obtain ⟨dp, hl, he⟩ := ((C8_price_listing_total partnersFx
      { fromCountry := "IN", toCountry := "AE", deliveryPartnerId := some "dp1",
        amount := some 100, status := none } priceListingFx
      { fromCountry := none, toCountry := none, deliveryPartnerId := none,
        amount := some 200, status := none } (by decide)).1 _ hc).1 "dp1" rfl
    have hdp : dp = { price := 50 } := by
      rw [show lookupById partnersFx "dp1" = some { price := 50 } from by decide] at hl
      cases hl; rfl
    exact ⟨_, hc, by rw [he, hdp], by decide⟩
  · obtain ⟨dp, hl, he⟩ := (((C8_price_listing_total partnersFx
      { fromCountry := "IN", toCountry := "AE", deliveryPartnerId := some "dp1",
        amount := some 100, status := none } priceListingFx
      { fromCountry := none, toCountry := none, deliveryPartnerId := none,
        amount := some 200, status := none } (by decide)).2 (Or.inl (by decide))) _ hup).1
      "dp1" rfl
    have hdp : dp = { price := 50 } := by
      rw [show lookupById partnersFx "dp1" = some { price := 50 } from by decide] at hl
      cases hl; rfl
    exact ⟨_, hup, by rw [he, hdp], by decide⟩

/-- C5: booking creation rejects with a bad-request (400) error: a
sender of `customerType = Receiver`; a receiver of
`customerType = Sender`; `expectedReceivingDate ≤ date`;
`bundleCount < 1` (zero trips the required-fields falsiness check,
negatives the explicit bound, both 400); and a pickup partner that is
neither `Self` nor `Central` nor an existing document.  Each conjunct
assumes exactly the earlier checks of the controller's sequence
succeed. -/
theorem C5_booking_creation_rejections
    (customers : List (String × Customer)) (partners : List String)
    (existing : String → Bool) (nowMs : Nat) (p : BookingPayload) :
    (∀ sc, missingRequired p = false →
      lookupById customers p.sender = some sc → sc.customerType = "Receiver" →
      createBooking customers partners existing nowMs p =
        .error (ApiError.badRequest "Selected sender must be of type \"Sender\"")) ∧
    (∀ sc rc, missingRequired p = false →
      lookupById customers p.sender = some sc → sc.customerType = "Sender" →
      lookupById customers p.receiver = some rc → rc.customerType = "Sender" →
      createBooking customers partners existing nowMs p =
        .error (ApiError.badRequest "Selected receiver must be of type \"Receiver\"")) ∧
    (∀ sc rc bd ed, missingRequired p = false →
      lookupById customers p.sender = some sc → sc.customerType = "Sender" →
      lookupById customers p.receiver = some rc → rc.customerType = "Receiver" →
      branchCheckPasses rc p = true → pickupOk partners p = true →
      p.date = some bd → p.expectedReceivingDate = some ed → ed.ms ≤ bd.ms →
      createBooking customers partners existing nowMs p =
        .error (ApiError.badRequest "Expected receiving date must be after booking date")) ∧
    (∀ sc rc bd ed k,
      p.sender ≠ "" → p.receiver ≠ "" → p.pickupPartner ≠ "" →
      lookupById customers p.sender = some sc → sc.customerType = "Sender" →
      lookupById customers p.receiver = some rc → rc.customerType = "Receiver" →
      branchCheckPasses rc p = true → pickupOk partners p = true →
      p.date = some bd → p.expectedReceivingDate = some ed → bd.ms < ed.ms →
      p.bundleCount = some k → k < 1 →
      ∃ m, createBooking customers partners existing nowMs p = .error ⟨400, m⟩) ∧
    (∀ sc rc, missingRequired p = false →
      lookupById customers p.sender = some sc → sc.customerType = "Sender" →
      lookupById customers p.receiver = some rc → rc.customerType = "Receiver" →
      branchCheckPasses rc p = true → pickupOk partners p = false →
      createBooking customers partners existing nowMs p =
        .error (ApiError.badRequest "Pickup partner not found")) := by
  refine ⟨?_, ?_, ?_, ?_, ?_⟩
  · intro sc hreq hs hsc
    have h1 : (sc.customerType == "Sender") = false := by rw [hsc]; decide
    simp [createBooking, hreq, hs, h1]
  · intro sc rc hreq hs hsc hr hrc
    have h1 : (sc.customerType == "Sender") = true := by rw [hsc]; decide
    have h2 : (rc.customerType == "Receiver") = false := by rw [hrc]; decide
    simp [createBooking, hreq, hs, h1, hr, h2]
  · intro sc rc bd ed hreq hs hsc hr hrc hbr hpk hd he hle
    have h1 : (sc.customerType == "Sender") = true := by rw [hsc]; decide
    have h2 : (rc.customerType == "Receiver") = true := by rw [hrc]; decide
    obtain ⟨k, hk⟩ : ∃ k, p.bundleCount = some k := by
      cases hbc0 : p.bundleCount with
      | none => rw [missingRequired] at hreq; simp [hbc0, numFalsy] at hreq
      | some k => exact ⟨k, rfl⟩
    simp [createBooking, hreq, hs, h1, hr, h2, hbr, hpk, hd, he, hk, hle]
  · intro sc rc bd ed k hsne hrne hpne hs hsc hr hrc hbr hpk hd he hlt hk hk1
    by_cases hk0 : k = 0
    · subst hk0
      have hmr : missingRequired p = true := by
        simp [missingRequired, hk, numFalsy]
      exact ⟨"All required fields must be provided",
        by simp [createBooking, hmr, ApiError.badRequest]⟩
    · have hmr : missingRequired p = false := by
        simp [missingRequired, hsne, hrne, hpne, hd, he, hk, numFalsy, hk0]
      have h1 : (sc.customerType == "Sender") = true := by rw [hsc]; decide
      have h2 : (rc.customerType == "Receiver") = true := by rw [hrc]; decide
      have hnle : ¬(ed.ms ≤ bd.ms) := not_le.mpr hlt
      exact ⟨"Bundle count must be at least 1",
        by simp [createBooking, hmr, hs, h1, hr, h2, hbr, hpk, hd, he, hnle, hk, hk1,
          ApiError.badRequest]⟩
  · intro sc rc hreq hs hsc hr hrc hbr hpkf
    have h1 : (sc.customerType == "Sender") = true := by rw [hsc]; decide
    have h2 : (rc.customerType == "Receiver") = true := by rw [hrc]; decide
    simp [createBooking, hreq, hs, h1, hr, h2, hbr, hpkf]

/-- C5 witness: each of the five rejections fired on a concrete
payload against the fixture customers and pickup partners. -/
theorem C5_booking_creation_rejections_witness :
    (createBooking customersFx pickupFx (fun _ => false) 0
        { bpayFx with sender := "r1" } =
      .error (ApiError.badRequest "Selected sender must be of type \"Sender\"")) ∧
    (createBooking customersFx pickupFx (fun _ => false) 0
        { bpayFx with receiver := "s1" } =
      .error (ApiError.badRequest "Selected receiver must be of type \"Receiver\"")) ∧
    (createBooking customersFx pickupFx (fun _ => false) 0
        { bpayFx with expectedReceivingDate := bpayFx.date } =
      .error (ApiError.badRequest "Expected receiving date must be after booking date")) ∧
    (∃ m, createBooking customersFx pickupFx (fun _ => false) 0
        { bpayFx with bundleCount := some 0 } = .error ⟨400, m⟩) ∧
    (createBooking customersFx pickupFx (fun _ => false) 0
        { bpayFx with pickupPartner := "ghost" } =
      .error (ApiError.badRequest "Pickup partner not found")) := by
  refine ⟨?_, ?_, ?_, ?_, ?_⟩
  · exact (C5_booking_creation_rejections customersFx pickupFx (fun _ => false) 0
      { bpayFx with sender := "r1" }).1
      { name := "Global Imports", customerType := "Receiver", branches := [] }
      (by decide) (by decide) rfl
  · exact (C5_booking_creation_rejections customersFx pickupFx (fun _ => false) 0
      { bpayFx with receiver := "s1" }).2.1
      { name := "Acme Traders", customerType := "Sender", branches := [] }
      { name := "Acme Traders", customerType := "Sender", branches := [] }
      (by decide) (by decide) rfl (by decide) rfl
  · exact (C5_booking_creation_rejections customersFx pickupFx (fun _ => false) 0
      { bpayFx with expectedReceivingDate := bpayFx.date }).2.2.1
      { name := "Acme Traders", customerType := "Sender", branches := [] }
      { name := "Global Imports", customerType := "Receiver", branches := [] }
      { ms := 1704844800000, year := 2024, month := 1, day := 10 }
      { ms := 1704844800000, year := 2024, month := 1, day := 10 }
      (by decide) (by decide) rfl (by decide) rfl (by decide) (by decide)
      (by decide) (by decide) (by decide)
  · exact (C5_booking_creation_rejections customersFx pickupFx (fun _ => false) 0
      { bpayFx with bundleCount := some 0 }).2.2.2.1
      { name := "Acme Traders", customerType := "Sender", branches := [] }
      { name := "Global Imports", customerType := "Receiver", branches := [] }
      { ms := 1704844800000, year := 2024, month := 1, day := 10 }
      { ms := 1705708800000, year := 2024, month := 1, day := 20 }
      0 (by decide) (by decide) (by decide) (by decide) rfl (by decide) rfl
      (by decide) (by decide) (by decide) (by decide) (by decide) (by decide)
      (by decide)
  · exact (C5_booking_creation_rejections customersFx pickupFx (fun _ => false) 0
      { bpayFx with pickupPartner := "ghost" }).2.2.2.2
      { name := "Acme Traders", customerType := "Sender", branches := [] }
      { name := "Global Imports", customerType := "Receiver", branches := [] }
      (by decide) (by decide) rfl (by decide) rfl (by decide) (by decide)

/-- C6 counterexample: an update supplying only `date` (here 20,
beyond the stored `expectedReceivingDate` 10) is accepted, leaving the
booking with `expectedReceivingDate ≤ date` — the claim's "any update
that would leave the booking with expectedReceivingDate not strictly
after date is rejected" is false for single-field date updates. -/
theorem C6_single_date_update_accepted :
    updateBooking [] [] bookingFx { bupdEmpty with date := some 20 } =
      .ok { bookingFx with date := 20 } ∧
    ({ bookingFx with date := 20 } : Booking).expectedReceivingDate ≤
      ({ bookingFx with date := 20 } : Booking).date := by
  constructor
  · decide
  · decide

/-- C6 (amended): the `expectedReceivingDate > date` constraint is
enforced on update only when *both* date fields appear in the payload;
an update supplying exactly one of them is persisted without any check
against the stored counterpart. -/
theorem C6_date_order_checked_only_when_both_present
    (customers : List (String × Customer)) (partners : List String)
    (b : Booking) (u : BookingUpdate) :
    (∀ d e, u.sender = none → u.receiver = none → u.pickupPartner = none →
      u.repacking = none →
      u.date = some d → u.expectedReceivingDate = some e → e ≤ d →
      updateBooking customers partners b u =
        .error (ApiError.badRequest "Expected receiving date must be after booking date")) ∧
    (∀ d, u.sender = none → u.receiver = none → u.pickupPartner = none →
      u.repacking = none → u.receiverBranch = none → u.bundleCount = none →
      u.status = none → u.store = none →
      u.date = some d → u.expectedReceivingDate = none →
      updateBooking customers partners b u = .ok { b with date := d }) ∧
    (∀ e, u.sender = none → u.receiver = none → u.pickupPartner = none →
      u.repacking = none → u.receiverBranch = none → u.bundleCount = none →
      u.status = none → u.store = none →
      u.date = none → u.expectedReceivingDate = some e →
      updateBooking customers partners b u =
        .ok { b with expectedReceivingDate := e }) := by
  refine ⟨?_, ?_, ?_⟩
  · intro d e hsn hrn hpn hrpn hd he hle
    simp [updateBooking, hsn, hrn, hpn, hrpn, hd, he, hle]
  · intro d hsn hrn hpn hrpn hbn hbcn hstn hston hd he
    simp [updateBooking, hsn, hrn, hpn, hrpn, hbn, hbcn, hstn, hston, hd, he, mergeOpt]
  · intro e hsn hrn hpn hrpn hbn hbcn hstn hston hd he
    simp [updateBooking, hsn, hrn, hpn, hrpn, hbn, hbcn, hstn, hston, hd, he, mergeOpt]

/-- C6 witness: on the stored fixture booking, a payload with both
dates out of order is rejected, while payloads with a single date field
are persisted unchecked. -/
theorem C6_date_order_witness :
    (updateBooking [] [] bookingFx
        { bupdEmpty with date := some 20, expectedReceivingDate := some 15 } =
      .error (ApiError.badRequest "Expected receiving date must be after booking date")) ∧
    (updateBooking [] [] bookingFx { bupdEmpty with expectedReceivingDate := some (-5) } =
      .ok { bookingFx with expectedReceivingDate := -5 }) := by
  constructor
  · exact (C6_date_order_checked_only_when_both_present [] [] bookingFx
      { bupdEmpty with date := some 20, expectedReceivingDate := some 15 }).1
      20 15 rfl rfl rfl rfl rfl rfl (by decide)
  · exact (C6_date_order_checked_only_when_both_present [] [] bookingFx
      { bupdEmpty with expectedReceivingDate := some (-5) }).2.2
      (-5) rfl rfl rfl rfl rfl rfl rfl rfl rfl rfl

/-! Helper lemmas for the `lastCreatedToday` fold. -/

lemma foldl_newerOf_acc (m : Container) :
    ∀ (l : List Container) (b : Container),
      (b = m ∨ b.createdAt < m.createdAt) →
      (∀ c ∈ l, c = m ∨ c.createdAt < m.createdAt) →
      (m ∈ l ∨ b = m) →
      l.foldl newerOf (some b) = some m
  | [], b, _, _, hget => by
    rcases hget with hmem | rfl
    · exact absurd hmem (by simp)
    · rfl
  | c :: t, b, hb, hl, hget => by
    have hc := hl c (List.mem_cons_self c t)
    have ht : ∀ x ∈ t, x = m ∨ x.createdAt < m.createdAt :=
      fun x hx => hl x (List.mem_cons_of_mem _ hx)
    simp only [List.foldl_cons]
    have hstep : newerOf (some b) c =
        if b.createdAt < c.createdAt then some c else some b := rfl
    by_cases hlt : b.createdAt < c.createdAt
    · rw [hstep, if_pos hlt]
      apply foldl_newerOf_acc m t c hc ht
      rcases hc with rfl | hclt
      · exact Or.inr rfl
      · rcases hget with hmem | rfl
        · rcases List.mem_cons.mp hmem with rfl | hmt
          · exact absurd hclt (lt_irrefl _)
          · exact Or.inl hmt
        · exact absurd (lt_trans hlt hclt) (lt_irrefl _)
    · rw [hstep, if_neg hlt]
      apply foldl_newerOf_acc m t b hb ht
      rcases hget with hmem | rfl
      · rcases List.mem_cons.mp hmem with rfl | hmt
        · rcases hb with rfl | hblt
          · exact Or.inr rfl
          · exact absurd hblt hlt
        · exact Or.inl hmt
      · exact Or.inr rfl

lemma foldl_newerOf_none (l : List Container) (m : Container)
    (hmem : m ∈ l) (hmax : ∀ c ∈ l, c = m ∨ c.createdAt < m.createdAt) :
    l.foldl newerOf none = some m := by
  cases l with
  | nil => exact absurd hmem (by simp)
  | cons c t =>
    simp only [List.foldl_cons]
    have hstep : newerOf none c = some c := rfl
    rw [hstep]
    apply foldl_newerOf_acc m t c (hmax c (List.mem_cons_self c t))
      (fun x hx => hmax x (List.mem_cons_of_mem _ hx))
    rcases List.mem_cons.mp hmem with rfl | hmt
    · exact Or.inr rfl
    · exact Or.inl hmt

lemma lastCreatedToday_eq (startD endD : Nat) (cs : List Container) (m : Container)
    (hmem : m ∈ cs) (hin1 : startD ≤ m.createdAt) (hin2 : m.createdAt < endD)
    (hmax : ∀ c ∈ cs, startD ≤ c.createdAt → c.createdAt < endD →
      c = m ∨ c.createdAt < m.createdAt) :
    lastCreatedToday startD endD cs = some m := by
  unfold lastCreatedToday
  apply foldl_newerOf_none
  · exact List.mem_filter.mpr ⟨hmem, by simp [hin1, hin2]⟩
  · intro c hc
    have := List.mem_filter.mp hc
    obtain ⟨hcs, hp⟩ := this
    simp only [Bool.and_eq_true, decide_eq_true_eq] at hp
    exact hmax c hcs hp.1 hp.2

lemma lastCreatedToday_none (startD endD : Nat) (cs : List Container)
    (h : ∀ c ∈ cs, c.createdAt < startD ∨ endD ≤ c.createdAt) :
    lastCreatedToday startD endD cs = none := by
  unfold lastCreatedToday
  have hf : cs.filter
      (fun c => decide (startD ≤ c.createdAt) && decide (c.createdAt < endD)) = [] := by
    rw [List.filter_eq_nil_iff]
    intro c hc
    rcases h c hc with h' | h' <;> simp <;> omega
  rw [hf]
  rfl

/-- C9 counterexample: a duplicate generated container code does not
produce a 409 — on the fixture state the generator derives
`CNT25100002` from the most recent container and the insert collides
with the existing `CNT25100002`, and the response carries status 400
("Container code already exists"), with no retry. -/
theorem C9_container_duplicate_is_400 :
    createContainer clockFx [contDupA, contDupB] cpayFx 170 =
      .error ⟨400, "Container code already exists"⟩ := by
  decide

/-- C9 (amended): a duplicate bundle number within a packing list and a
second packing list for an already-referenced booking fail with
status 409 (conflict); a duplicate generated container code fails
immediately — no retry budget exists — with status 400. -/
theorem C9_uniqueness_violation_statuses :
    (∀ (pls : List PackingList) (bundles : List Bundle) (bp : BundlePayload)
        (pl : PackingList),
      findPL pls bp.packingListId = some pl →
      bundles.any (fun b =>
        b.packingList == bp.packingListId && b.bundleNumber == bp.bundleNumber) = true →
      createBundle pls bundles bp =
        .error ⟨409, "Bundle number " ++ bp.bundleNumber ++
          " already exists for this packing list"⟩) ∧
    (∀ (bookings : List String) (pls : List PackingList) (newId newCode : String)
        (plp : PackingListPayload),
      bookings.contains plp.bookingReference = true →
      pls.any (fun q => q.bookingReference == plp.bookingReference) = true →
      createPackingList bookings pls newId newCode plp =
        .error ⟨409, "Packing list already exists for this booking"⟩) ∧
    (∀ (clock : ContainerClock) (cs : List Container) (p : ContainerPayload)
        (createdAt : Nat) (code : String),
      generateContainerCode clock cs = some code →
      cs.any (fun e => e.containerCode == code) = true →
      createContainer clock cs p createdAt =
        .error ⟨400, "Container code already exists"⟩) := by
  refine ⟨?_, ?_, ?_⟩
  · intro pls bundles bp pl hfind hdup
    simp [createBundle, hfind, hdup, ApiError.conflict]
  · intro bookings pls newId newCode plp hbook hdup
    have hb2 : plp.bookingReference ∈ bookings := by simpa using hbook
    simp [createPackingList, hbook, hb2, hdup, ApiError.conflict]
  · intro clock cs p createdAt code hgen hdup
    simp [createContainer, hgen, hdup]

/-- C9 witness: the three uniqueness violations fired on concrete
fixtures, with their statuses. -/
theorem C9_uniqueness_violation_statuses_witness :
    (createBundle [plFx "pending"] [bundleFx] bpayDupFx =
      .error ⟨409, "Bundle number B1 already exists for this packing list"⟩) ∧
    (createPackingList ["bk1"] [plFx "pending"] "pl9" "PL-2024-002" plpayDupFx =
      .error ⟨409, "Packing list already exists for this booking"⟩) ∧
    (createContainer clockFx [contDupA, contDupB] cpayFx 170 =
      .error ⟨400, "Container code already exists"⟩) := by
  refine ⟨?_, ?_, ?_⟩
  · exact ((C9_uniqueness_violation_statuses).1 [plFx "pending"] [bundleFx]
      bpayDupFx (plFx "pending") (by decide) (by decide)).trans (by decide)
  · exact (C9_uniqueness_violation_statuses).2.1 ["bk1"] [plFx "pending"]
      "pl9" "PL-2024-002" plpayDupFx (by decide) (by decide)
  · exact (C9_uniqueness_violation_statuses).2.2 clockFx [contDupA, contDupB]
      cpayFx 170 "CNT25100002" (by decide) (by decide)

/-- C3 counterexample: the code generator does not scan containers by
year-month code prefix nor take the highest suffix — it looks only at
the most recently created container of the current day.  With a single
container from a previous day carrying this month's prefix and suffix
0007, the source generator yields `CNT25100001` while the claimed
algorithm yields `CNT25100008`. -/
theorem C3_generator_differs_from_claim :
    generateContainerCode clockFx [contOldFx] = some "CNT25100001" ∧
    generateContainerCodeClaimed clockFx [contOldFx] = "CNT25100008" := by
  constructor <;> decide

/-- C3 (amended): the generator composes `CNT` + last two year digits +
2-padded month + 4-padded sequence, where the sequence is 1 when no
container was created today and otherwise 1 plus the parsed 4-character
suffix of the most recently created container of today (regardless of
its prefix); creation is attempted once only, a duplicate code failing
immediately with a 400 client error. -/
theorem C3_container_code_behaviour (clock : ContainerClock) (cs : List Container)
    (p : ContainerPayload) (createdAt : Nat) :
    ((∀ c ∈ cs, c.createdAt < clock.startOfDay ∨ clock.endOfDay ≤ c.createdAt) →
      generateContainerCode clock cs =
        some ("CNT" ++ String.mk (takeLast 2 (natDigits clock.year)) ++
          pad 2 clock.month ++ pad 4 1)) ∧
    (∀ (m : Container) (sfx : Nat),
      m ∈ cs → clock.startOfDay ≤ m.createdAt → m.createdAt < clock.endOfDay →
      (∀ c ∈ cs, clock.startOfDay ≤ c.createdAt → c.createdAt < clock.endOfDay →
        c = m ∨ c.createdAt < m.createdAt) →
      m.containerCode ≠ "" →
      parseIntFrom (takeLast 4 m.containerCode.data) = some sfx →
      generateContainerCode clock cs =
        some ("CNT" ++ String.mk (takeLast 2 (natDigits clock.year)) ++
          pad 2 clock.month ++ pad 4 (sfx + 1))) ∧
    (∀ code, generateContainerCode clock cs = some code →
      cs.any (fun e => e.containerCode == code) = true →
      createContainer clock cs p createdAt =
        .error ⟨400, "Container code already exists"⟩) := by
  refine ⟨?_, ?_, ?_⟩
  · intro hnone
    have hl := lastCreatedToday_none clock.startOfDay clock.endOfDay cs hnone
    simp [generateContainerCode, hl]
  · intro m sfx hmem hin1 hin2 hmax hne hparse
    have hl := lastCreatedToday_eq clock.startOfDay clock.endOfDay cs m hmem hin1 hin2 hmax
    have hneb : (m.containerCode == "") = false := by simp [hne]
    simp [generateContainerCode, hl, hneb, hparse]
  · intro code hgen hdup
    simp [createContainer, hgen, hdup]

/-- C3 witness: with no container created today the generator yields
sequence 0001; with `contDupB` (suffix 0001) the most recent of today,
it yields 0002; and inserting that code over `contDupA` fails at once
with status 400. -/
theorem C3_container_code_behaviour_witness :
    (generateContainerCode clockFx [contOldFx] = some "CNT25100001") ∧
    (generateContainerCode clockFx [contDupA, contDupB] = some "CNT25100002") ∧
    (createContainer clockFx [contDupA, contDupB] cpayFx 170 =
      .error ⟨400, "Container code already exists"⟩) := by
  refine ⟨?_, ?_, ?_⟩
  · exact ((C3_container_code_behaviour clockFx [contOldFx] cpayFx 170).1
      (by decide)).trans (by decide)
  · exact ((C3_container_code_behaviour clockFx [contDupA, contDupB] cpayFx 170).2.1
      contDupB 1 (by decide) (by decide) (by decide)
      (by decide) (by decide) (by decide)).trans (by decide)
  · exact (C3_container_code_behaviour clockFx [contDupA, contDupB] cpayFx 170).2.2
      "CNT25100002" (by decide) (by decide)

/-! Helper lemmas for the booking-code claims: decimal digits, padding,
character classes, and the probing loop. -/

lemma natDigitsAux_irrel : ∀ (f1 : Nat), ∀ f2 n, n < f1 → n < f2 →
    natDigitsAux f1 n = natDigitsAux f2 n
  | 0, _, _, h1, _ => absurd h1 (Nat.not_lt_zero _)
  | f1 + 1, f2, n, h1, h2 => by
    cases f2 with
    | zero => exact absurd h2 (Nat.not_lt_zero _)
    | succ f2 =>
      simp only [natDigitsAux]
      by_cases hn : n < 10
      · rw [if_pos hn, if_pos hn]
      · rw [if_neg hn, if_neg hn]
        have hdiv : n / 10 < n := Nat.div_lt_self (by omega) (by omega)
        rw [natDigitsAux_irrel f1 f2 (n / 10) (by omega) (by omega)]

lemma natDigits_eq (n : Nat) : natDigits n =
    if n < 10 then [Nat.digitChar n]
    else natDigits (n / 10) ++ [Nat.digitChar (n % 10)] := by
  have h0 : natDigits n =
      if n < 10 then [Nat.digitChar n]
      else natDigitsAux n (n / 10) ++ [Nat.digitChar (n % 10)] := rfl
  rw [h0]
  by_cases hn : n < 10
  · rw [if_pos hn, if_pos hn]
  · rw [if_neg hn, if_neg hn]
    have hdiv : n / 10 < n := Nat.div_lt_self (by omega) (by omega)
    rw [natDigitsAux_irrel n (n / 10 + 1) (n / 10) (by omega) (by omega)]
    rfl

lemma digitChar_isDigit (k : Nat) (h : k < 10) : (Nat.digitChar k).isDigit = true := by
  interval_cases k <;> decide

lemma natDigits_all_digit (n : Nat) : (natDigits n).all Char.isDigit = true := by
  induction n using Nat.strong_induction_on with
  | _ n ih =>
    rw [natDigits_eq]
    by_cases hn : n < 10
    · rw [if_pos hn]
      simp [digitChar_isDigit n hn]
    · rw [if_neg hn]
      have hdiv : n / 10 < n := Nat.div_lt_self (by omega) (by omega)
      simp [List.all_append, ih (n / 10) hdiv,
        digitChar_isDigit (n % 10) (Nat.mod_lt _ (by omega))]

lemma natDigits_length_pos (n : Nat) : 1 ≤ (natDigits n).length := by
  rw [natDigits_eq]
  by_cases hn : n < 10
  · rw [if_pos hn]; simp
  · rw [if_neg hn]; simp

lemma natDigits_length_le : ∀ (w : Nat) (n : Nat), 1 ≤ w → n < 10 ^ w →
    (natDigits n).length ≤ w
  | 0, _, hw, _ => absurd hw (by omega)
  | w + 1, n, _, hn => by
    rw [natDigits_eq]
    by_cases h10 : n < 10
    · rw [if_pos h10]; simp
    · rw [if_neg h10]
      have hw1 : 1 ≤ w := by
        by_contra hc
        have : w = 0 := by omega
        subst this
        simp [pow_succ] at hn
        omega
      have hdivlt : n / 10 < 10 ^ w := by
        rw [Nat.div_lt_iff_lt_mul (by omega)]
        calc n < 10 ^ (w + 1) := hn
        _ = 10 ^ w * 10 := by rw [pow_succ]
      have := natDigits_length_le w (n / 10) hw1 hdivlt
      simp only [List.length_append, List.length_cons, List.length_nil]
      omega

lemma natDigits_length_ge : ∀ (w : Nat) (n : Nat), 10 ^ w ≤ n →
    w + 1 ≤ (natDigits n).length
  | 0, n, _ => natDigits_length_pos n
  | w + 1, n, hn => by
    have h10 : ¬(n < 10) := by
      have : 10 ≤ 10 ^ (w + 1) := by
        calc (10 : Nat) = 10 ^ 1 := (pow_one 10).symm
        _ ≤ 10 ^ (w + 1) := Nat.pow_le_pow_right (by omega) (by omega)
      omega
    rw [natDigits_eq, if_neg h10]
    have hdivge : 10 ^ w ≤ n / 10 := by
      rw [Nat.le_div_iff_mul_le (by omega)]
      calc 10 ^ w * 10 = 10 ^ (w + 1) := (pow_succ 10 w).symm
      _ ≤ n := hn
    have := natDigits_length_ge w (n / 10) hdivge
    simp only [List.length_append, List.length_cons, List.length_nil]
    omega

lemma padList_length (w : Nat) (l : List Char) :
    (padList w l).length = max w l.length := by
  simp [padList]
  omega

lemma padList_all (p : Char → Bool) (w : Nat) (l : List Char)
    (hl : l.all p = true) (h0 : p '0' = true) : (padList w l).all p = true := by
  simp only [padList, List.all_append, Bool.and_eq_true]
  refine ⟨?_, hl⟩
  rw [List.all_eq_true]
  intro x hx
  rw [List.eq_of_mem_replicate hx]
  exact h0

lemma takeLast_length (k : Nat) (l : List Char) :
    (takeLast k l).length = min k l.length := by
  simp [takeLast]
  omega

lemma takeLast_all (p : Char → Bool) (k : Nat) (l : List Char)
    (hl : l.all p = true) : (takeLast k l).all p = true := by
  rw [List.all_eq_true] at *
  intro x hx
  exact hl x (List.mem_of_mem_drop hx)

lemma isDigit_iff (c : Char) : c.isDigit = true ↔ 48 ≤ c.toNat ∧ c.toNat ≤ 57 := by
  simp [Char.isDigit]
  exact Iff.rfl

lemma isUpperAlnum_iff (c : Char) : isUpperAlnum c = true ↔
    (65 ≤ c.toNat ∧ c.toNat ≤ 90) ∨ (48 ≤ c.toNat ∧ c.toNat ≤ 57) := by
  simp [isUpperAlnum, Char.isDigit]
  exact Iff.rfl

lemma isAlphanum_iff (c : Char) : c.isAlphanum = true ↔
    (65 ≤ c.toNat ∧ c.toNat ≤ 90) ∨ (97 ≤ c.toNat ∧ c.toNat ≤ 122) ∨
    (48 ≤ c.toNat ∧ c.toNat ≤ 57) := by
  simp only [Char.isAlphanum, Char.isAlpha, Char.isUpper, Char.isLower, Char.isDigit,
    Bool.or_eq_true, Bool.and_eq_true, decide_eq_true_eq]
  constructor
  · rintro ((⟨h1, h2⟩ | ⟨h1, h2⟩) | ⟨h1, h2⟩)
    · exact Or.inl ⟨h1, h2⟩
    · exact Or.inr (Or.inl ⟨h1, h2⟩)
    · exact Or.inr (Or.inr ⟨h1, h2⟩)
  · rintro (⟨h1, h2⟩ | ⟨h1, h2⟩ | ⟨h1, h2⟩)
    · exact Or.inl (Or.inl ⟨h1, h2⟩)
    · exact Or.inl (Or.inr ⟨h1, h2⟩)
    · exact Or.inr ⟨h1, h2⟩

lemma ofNat_upper_isUpperAlnum (m : Nat) (h1 : 65 ≤ m) (h2 : m ≤ 90) :
    isUpperAlnum (Char.ofNat m) = true := by
  interval_cases m <;> decide

lemma toUpper_isUpperAlnum (c : Char) (h : c.isAlphanum = true) :
    isUpperAlnum c.toUpper = true := by
  have halnum := (isAlphanum_iff c).mp h
  show isUpperAlnum
    (if c.toNat ≥ 97 ∧ c.toNat ≤ 122 then Char.ofNat (c.toNat - 32) else c) = true
  by_cases hl : c.toNat ≥ 97 ∧ c.toNat ≤ 122
  · rw [if_pos hl]
    exact ofNat_upper_isUpperAlnum _ (by omega) (by omega)
  · rw [if_neg hl]
    rw [isUpperAlnum_iff]
    rcases halnum with h' | h' | h'
    · exact Or.inl h'
    · exact absurd h' hl
    · exact Or.inr h'

lemma digit_isUpperAlnum (c : Char) (h : c.isDigit = true) : isUpperAlnum c = true := by
  rw [isUpperAlnum_iff]
  exact Or.inr ((isDigit_iff c).mp h)

lemma cleanName_all (s : String) : (cleanName s).data.all isUpperAlnum = true := by
  rw [List.all_eq_true]
  intro x hx
  obtain ⟨c, hc, rfl⟩ := List.mem_map.mp hx
  have hcf : c ∈ s.data.filter Char.isAlphanum := List.mem_of_mem_take hc
  exact toUpper_isUpperAlnum c (List.mem_filter.mp hcf).2

lemma cleanName_length (s : String) : (cleanName s).data.length ≤ 3 := by
  show ((((s.data.filter Char.isAlphanum).take 3).map Char.toUpper)).length ≤ 3
  rw [List.length_map, List.length_take]
  exact min_le_left _ _

lemma takeWhile_append_all (p : Char → Bool) :
    ∀ (a : List Char) (x : Char) (r : List Char), a.all p = true → p x = false →
      (a ++ x :: r).takeWhile p = a
  | [], x, r, _, hx => by simp [List.takeWhile_cons, hx]
  | c :: t, x, r, ha, hx => by
    simp only [List.all_cons, Bool.and_eq_true] at ha
    simp [List.takeWhile_cons, ha.1, takeWhile_append_all p t x r ha.2 hx]

lemma dropWhile_append_all (p : Char → Bool) :
    ∀ (a : List Char) (x : Char) (r : List Char), a.all p = true → p x = false →
      (a ++ x :: r).dropWhile p = x :: r
  | [], x, r, _, hx => by simp [List.dropWhile_cons, hx]
  | c :: t, x, r, ha, hx => by
    simp only [List.all_cons, Bool.and_eq_true] at ha
    simp [List.dropWhile_cons, ha.1, dropWhile_append_all p t x r ha.2 hx]

/-- A string whose character data decomposes into the four blocks of
the booking-code shape matches the spec regex. -/
lemma matches_of_blocks (s : String) (a b c d : List Char)
    (hs : s.data = a ++ '_' :: (b ++ '_' :: (c ++ '_' :: d)))
    (ha : a.all isUpperAlnum = true) (ha3 : a.length ≤ 3)
    (hb : b.all isUpperAlnum = true) (hb3 : b.length ≤ 3)
    (hc : c.all Char.isDigit = true) (hc8 : c.length = 8)
    (hd : d.all Char.isDigit = true) (hd36 : d.length = 3 ∨ d.length = 6) :
    matchesBookingCodeRegex s = true := by
  have hu : isUpperAlnum '_' = false := by decide
  have hdg : Char.isDigit '_' = false := by decide
  unfold matchesBookingCodeRegex
  rw [hs]
  simp only [takeWhile_append_all isUpperAlnum a '_' _ ha hu,
    dropWhile_append_all isUpperAlnum a '_' _ ha hu,
    takeWhile_append_all isUpperAlnum b '_' _ hb hu,
    dropWhile_append_all isUpperAlnum b '_' _ hb hu,
    takeWhile_append_all Char.isDigit c '_' _ hc hdg,
    dropWhile_append_all Char.isDigit c '_' _ hc hdg]
  rcases hd36 with h | h <;> simp [h, ha3, hb3, hc8, hd]

lemma probeLoop_sound (cs cr ds : String) (ex : String → Bool) :
    ∀ (fuel seq : Nat) (code : String), probeLoop cs cr ds ex fuel seq = some code →
      ∃ j, seq ≤ j ∧ j < seq + fuel ∧ code = bookingCandidate cs cr ds j ∧
        ex code = false ∧
        ∀ i, seq ≤ i → i < j → ex (bookingCandidate cs cr ds i) = true
  | 0, seq, code => by intro h; exact absurd h (by simp [probeLoop])
  | fuel + 1, seq, code => by
    intro h
    simp only [probeLoop] at h
    by_cases hex : ex (bookingCandidate cs cr ds seq) = true
    · rw [if_pos hex] at h
      obtain ⟨j, hj1, hj2, hj3, hj4, hj5⟩ := probeLoop_sound cs cr ds ex fuel (seq + 1) code h
      refine ⟨j, by omega, by omega, hj3, hj4, fun i hi1 hi2 => ?_⟩
      by_cases hieq : i = seq
      · rw [hieq]; exact hex
      · exact hj5 i (by omega) hi2
    · rw [if_neg hex] at h
      cases h
      exact ⟨seq, le_refl _, by omega, rfl,
        by revert hex; cases ex (bookingCandidate cs cr ds seq) <;> simp,
        fun i hi1 hi2 => by omega⟩

lemma probeLoop_isSome (cs cr ds : String) (ex : String → Bool) :
    ∀ (fuel seq j : Nat), seq ≤ j → j < seq + fuel →
      ex (bookingCandidate cs cr ds j) = false →
      (probeLoop cs cr ds ex fuel seq).isSome = true
  | 0, seq, j => by intro h1 h2; omega
  | fuel + 1, seq, j => by
    intro h1 h2 hex
    simp only [probeLoop]
    by_cases hs : ex (bookingCandidate cs cr ds seq) = true
    · rw [if_pos hs]
      have hne : j ≠ seq := fun he => by rw [he] at hex; rw [hex] at hs; cases hs
      exact probeLoop_isSome cs cr ds ex fuel (seq + 1) j (by omega) (by omega) hex
    · rw [if_neg hs]
      rfl

lemma fourBlocks_data (A B C D : String) :
    (A ++ "_" ++ B ++ "_" ++ C ++ "_" ++ D).data =
      A.data ++ '_' :: (B.data ++ '_' :: (C.data ++ '_' :: D.data)) := by
  simp [show ("_" : String).data = ['_'] from rfl]

lemma pad_data_all (w n : Nat) : (pad w n).data.all Char.isDigit = true :=
  padList_all Char.isDigit w (natDigits n) (natDigits_all_digit n) (by decide)

lemma pad_data_length (w n : Nat) (hw : 1 ≤ w) (h : n < 10 ^ w) :
    (pad w n).data.length = w := by
  show (padList w (natDigits n)).length = w
  rw [padList_length]
  have := natDigits_length_le w n hw h
  omega

lemma formatDate_all (y m d : Nat) :
    (formatDate y m d).data.all Char.isDigit = true := by
  show (padList 4 (natDigits y) ++ padList 2 (natDigits m) ++ padList 2 (natDigits d)).all
    Char.isDigit = true
  simp only [List.all_append, Bool.and_eq_true]
  refine ⟨⟨?_, ?_⟩, ?_⟩ <;>
    exact padList_all Char.isDigit _ _ (natDigits_all_digit _) (by decide)

lemma formatDate_length (y m d : Nat) (hy : y < 10000) (hm : m < 100) (hd : d < 100) :
    (formatDate y m d).data.length = 8 := by
  show (padList 4 (natDigits y) ++ padList 2 (natDigits m) ++ padList 2 (natDigits d)).length = 8
  simp only [List.length_append, padList_length]
  have h1 := natDigits_length_le 4 y (by omega) (by norm_num; omega)
  have h2 := natDigits_length_le 2 m (by omega) (by norm_num; omega)
  have h3 := natDigits_length_le 2 d (by omega) (by norm_num; omega)
  omega

lemma bookingCandidate_data (cs cr ds : String) (j : Nat) :
    (bookingCandidate cs cr ds j).data =
      cs.data ++ '_' :: (cr.data ++ '_' :: (ds.data ++ '_' :: (pad 3 j).data)) :=
  fourBlocks_data cs cr ds (pad 3 j)

/-- C1 (amended): for every sender and receiver name, date (years up to
9999, as printed by `toISOString`) and database state, the generated
booking code matches
`^[A-Z0-9]{0,3}_[A-Z0-9]{0,3}_\d{8}_(\d{3}|\d{6})$`; and whenever some
sequence candidate 1..999 is unused, the generator returns the candidate
with the *least* unused sequence number, which is then absent from the
existing codes.  (Uniqueness is not guaranteed on the timestamp
fallback, which is not re-checked — see the counterexample.) -/
theorem C1_booking_code_generation
    (senderName receiverName : String) (y m d : Nat) (ex : String → Bool) (ts : Nat)
    (hy : y < 10000) (hm : m < 100) (hd : d < 100) (hts : 100000 ≤ ts) :
    matchesBookingCodeRegex
      (generateBookingCode senderName receiverName (formatDate y m d) ex ts) = true ∧
    (∀ j0, 1 ≤ j0 → j0 ≤ 999 →
      ex (bookingCandidate (cleanName senderName) (cleanName receiverName)
        (formatDate y m d) j0) = false →
      ∃ j, 1 ≤ j ∧ j ≤ 999 ∧
        generateBookingCode senderName receiverName (formatDate y m d) ex ts =
          bookingCandidate (cleanName senderName) (cleanName receiverName)
            (formatDate y m d) j ∧
        ex (generateBookingCode senderName receiverName (formatDate y m d) ex ts) = false ∧
        ∀ i, 1 ≤ i → i < j →
          ex (bookingCandidate (cleanName senderName) (cleanName receiverName)
            (formatDate y m d) i) = true) := by
  cases hpl : probeLoop (cleanName senderName) (cleanName receiverName)
      (formatDate y m d) ex 999 1 with
  | some code =>
    have hgen : generateBookingCode senderName receiverName (formatDate y m d) ex ts =
        code := by
      simp [generateBookingCode, hpl]
    obtain ⟨j, hj1, hj2, hj3, hj4, hj5⟩ :=
      probeLoop_sound (cleanName senderName) (cleanName receiverName)
        (formatDate y m d) ex 999 1 code hpl
    constructor
    · rw [hgen, hj3]
      apply matches_of_blocks _ (cleanName senderName).data (cleanName receiverName).data
        (formatDate y m d).data (pad 3 j).data
      · exact bookingCandidate_data _ _ _ j
      · exact cleanName_all senderName
      · exact cleanName_length senderName
      · exact cleanName_all receiverName
      · exact cleanName_length receiverName
      · exact formatDate_all y m d
      · exact formatDate_length y m d hy hm hd
      · exact pad_data_all 3 j
      · exact Or.inl (pad_data_length 3 j (by omega) (by omega))
    · intro j0 h1 h2 hex0
      exact ⟨j, hj1, by omega, hgen.trans hj3, by rw [hgen]; exact hj4,
        fun i hi1 hi2 => hj5 i hi1 hi2⟩
  | none =>
    have hgen : generateBookingCode senderName receiverName (formatDate y m d) ex ts =
        cleanName senderName ++ "_" ++ cleanName receiverName ++ "_" ++
          formatDate y m d ++ "_" ++ String.mk (takeLast 6 (natDigits ts)) := by
      simp [generateBookingCode, hpl]
    constructor
    · rw [hgen]
      apply matches_of_blocks _ (cleanName senderName).data (cleanName receiverName).data
        (formatDate y m d).data (takeLast 6 (natDigits ts))
      · exact fourBlocks_data _ _ _ _
      · exact cleanName_all senderName
      · exact cleanName_length senderName
      · exact cleanName_all receiverName
      · exact cleanName_length receiverName
      · exact formatDate_all y m d
      · exact formatDate_length y m d hy hm hd
      · exact takeLast_all Char.isDigit 6 _ (natDigits_all_digit ts)
      · refine Or.inr ?_
        rw [takeLast_length]
        have := natDigits_length_ge 5 ts (by norm_num; omega)
        omega
    · intro j0 h1 h2 hex0
      exfalso
      have := probeLoop_isSome (cleanName senderName) (cleanName receiverName)
        (formatDate y m d) ex 999 1 j0 h1 (by omega) hex0
      rw [hpl] at this
      cases this

set_option maxRecDepth 10000 in
/-- C1 counterexample: with empty cleaned names, every one of the 999
sequence candidates already taken and the timestamp fallback code
itself already present (`allCodesExist` answers true for every probe),
the generator still returns `__20240110_000000` — a code that *is*
among the existing bookings.  The claim's unconditional "unique among
existing bookings at the moment of generation" fails on the fallback
path, which the source does not re-check for collision. -/
theorem C1_fallback_code_not_unique :
    generateBookingCode "" "" (formatDate 2024 1 10) allCodesExist 1700000000000 =
      "__20240110_000000" ∧
    allCodesExist "__20240110_000000" = true := by
  constructor
  · decide
  · rfl

/-- C1 witness: the spec's scenario — names "Acme Traders" and
"Global Imports", date 2024-01-10, empty database — produces a
regex-matching code, equal to the least unused candidate, concretely
`ACM_GLO_20240110_001`. -/
theorem C1_booking_code_generation_witness :
    matchesBookingCodeRegex (generateBookingCode "Acme Traders" "Global Imports"
      (formatDate 2024 1 10) (fun _ => false) 1700000000000) = true ∧
    (∃ j, 1 ≤ j ∧ j ≤ 999 ∧
      generateBookingCode "Acme Traders" "Global Imports" (formatDate 2024 1 10)
        (fun _ => false) 1700000000000 =
        bookingCandidate (cleanName "Acme Traders") (cleanName "Global Imports")
          (formatDate 2024 1 10) j) ∧
    generateBookingCode "Acme Traders" "Global Imports" (formatDate 2024 1 10)
      (fun _ => false) 1700000000000 = "ACM_GLO_20240110_001" := by
  refine ⟨?_, ?_, ?_⟩
  · exact (C1_booking_code_generation "Acme Traders" "Global Imports" 2024 1 10
      (fun _ => false) 1700000000000 (by omega) (by omega) (by omega) (by omega)).1
  · obtain ⟨j, hj1, hj2, hj3, _, _⟩ :=
      (C1_booking_code_generation "Acme Traders" "Global Imports" 2024 1 10
        (fun _ => false) 1700000000000 (by omega) (by omega) (by omega) (by omega)).2
        1 (by omega) (by omega) rfl
    exact ⟨j, hj1, hj2, hj3⟩
  · decide

end Introline
